import Mathlib

/-!
# TeensyQuad flight task (`task_flight.c`)

A shallow embedding of the periodic flight task: the gyro-bias table lookup
(`GetBias`), the parameter bridge (`UpdateParameters`), the timer callback
(`TimerHandler`) and the body of the task loop (`TaskHandler`).

Conventions of the embedding:

* `float` values are idealised as exact rationals (`ℚ`); no rounding is modelled.
* `int16_t` values are integers, reduced with `toInt16` where the source stores
  a computed value into an `int16_t` variable; `uint8_t` values are naturals
  reduced modulo `256`.
* A read through a null pointer or past the end of an array has no defined
  result; functions that may do so return `Option`, with `none` for that case.
-/

namespace TeensyQuad

/-! ## Data model -/

/-- The `vector3f_t` of `vector3f.h`: three `float` components. -/
structure vector3f_t where
  x : ℚ
  y : ℚ
  z : ℚ
deriving DecidableEq

/-- The `stGyroBiasTableEntry_t` of `task_flight.c`. -/
structure stGyroBiasTableEntry_t where
  iTemp : Int
  stBias : vector3f_t
deriving DecidableEq

/-- Conversion of an integer to `int16_t` (two's complement wrap). -/
def toInt16 (v : Int) : Int :=
  (v + 32768) % 65536 - 32768

/-! ## `GetBias` -/

/-- The `astGyroBiasTable` local to `GetBias`. -/
def astGyroBiasTable : List stGyroBiasTableEntry_t :=
  [ { iTemp := 3, stBias := { x := -0.618, y := 0.900, z := 1.000 } },
    { iTemp := 43, stBias := { x := -0.500, y := 0.380, z := 4.200 } } ]

/-- The scan loop of `GetBias`: starting at `uiIndex` with the entries from
`uiIndex` on still to visit, stop at the first entry whose temperature is
above `iTemp`; the result is the final value of `uiIndex`. -/
def scanBiasTable (iTemp : Int) : List stGyroBiasTableEntry_t → Nat → Nat
  | [], uiIndex => uiIndex
  | e :: rest, uiIndex =>
      if iTemp < e.iTemp then uiIndex else scanBiasTable iTemp rest (uiIndex + 1)

/-- The function `GetBias` over an arbitrary table. An index outside the table
gives `none`. -/
def GetBiasIn (tbl : List stGyroBiasTableEntry_t) (iTemp : Int) : Option vector3f_t :=
  let uiIndex := scanBiasTable iTemp tbl 0
  if uiIndex = 0 ∨ uiIndex = tbl.length then
    -- Temp too low or too high - no point in interpolating
    (tbl[uiIndex]?).map (fun e => e.stBias)
  else
    match tbl[uiIndex - 1]?, tbl[uiIndex]? with
    | some pstBiasLower, some pstBiasUpper =>
        let iTempRange : Int := toInt16 (pstBiasUpper.iTemp - pstBiasLower.iTemp)
        let iTempDelta : Int := toInt16 (iTemp - pstBiasLower.iTemp)
        let iTempScale : ℚ := (iTempDelta : ℚ) / (iTempRange : ℚ)
        let stBiasRange : vector3f_t :=
          { x := pstBiasUpper.stBias.x - pstBiasLower.stBias.x,
            y := pstBiasUpper.stBias.y - pstBiasLower.stBias.y,
            z := pstBiasUpper.stBias.z - pstBiasLower.stBias.z }
        let stBiasDelta : vector3f_t :=
          { x := stBiasRange.x * iTempScale,
            y := stBiasRange.y * iTempScale,
            z := stBiasRange.z * iTempScale }
        some { x := stBiasDelta.x + pstBiasLower.stBias.x,
               y := stBiasDelta.y + pstBiasLower.stBias.y,
               z := stBiasDelta.z + pstBiasLower.stBias.z }
    | _, _ => none

/-- The function `GetBias` of `task_flight.c`. -/
def GetBias (iTemp : Int) : Option vector3f_t :=
  GetBiasIn astGyroBiasTable iTemp

/-! ## Parameter bridge: `UpdateParameters` -/

/-- The eight parameter pointers of `task_flight.c`, as `PARAM_FindParamByName`
left them: `none` is a null pointer (the parameter was not found), `some v` a
parameter whose `fValue` currently is `v`. -/
structure Params where
  pstTrimRoll : Option ℚ
  pstTrimPitch : Option ℚ
  pstTrimYaw : Option ℚ
  pstPidGainRateP : Option ℚ
  pstPidGainRateD : Option ℚ
  pstPidGainAngleP : Option ℚ
  pstPidGainRateYawP : Option ℚ
  pstPidGainRateYawD : Option ℚ

/-- Calls the task makes into its collaborators (flight controller, IMU driver,
publish-subscribe bus), in the order they are issued. The pure scale
conversions `LSM9DS0_calcGyro`, `LSM9DS0_calcAccel`, `LSM9DS0_calcMag` are not
recorded. -/
inductive Event where
  | FLIGHT_SetTrim (stTrim : vector3f_t)
  | FLIGHT_SetPidGains (fRateP fRateD fAngleP : ℚ)
  | LSM9DS0_fifoCountGyro
  | LSM9DS0_readGyro
  | LSM9DS0_fifoCountAccel
  | LSM9DS0_readAccel
  | LSM9DS0_readMag
  | LSM9DS0_readTemp
  | flight_process (accel gyro mag : vector3f_t)
  | FLIGHT_GetRotation
  | PUBSUB_Publish
deriving DecidableEq

/-- The trim part of `UpdateParameters`, up to the call of `FLIGHT_SetTrim`:
the value of `stTrim` at that call, or `none` when a null pointer is read on
the way. -/
def buildTrim (p : Params) : Option vector3f_t :=
  let stTrim : vector3f_t := { x := 0, y := 0, z := 0 }
  let stTrim : vector3f_t :=
    match p.pstTrimRoll with
    | some fValue => { stTrim with x := fValue }
    | none => stTrim
  let stTrim : vector3f_t :=
    match p.pstTrimPitch with
    | some fValue => { stTrim with y := fValue }
    | none => stTrim
  match p.pstTrimYaw with
  | some _ =>
      -- stTrim.y = pstTrimPitch->fValue;
      match p.pstTrimPitch with
      | some fValue => some { stTrim with y := fValue }
      | none => none
  | none => some stTrim

/-- Outcome of a run of `UpdateParameters`: the calls it made, and whether it
returned (`false`: it stopped at the read of a null pointer). -/
structure ParamRun where
  calls : List Event
  returned : Bool
deriving DecidableEq

/-- The function `UpdateParameters` of `task_flight.c`. -/
def UpdateParameters (p : Params) : ParamRun :=
  match buildTrim p with
  | none => { calls := [], returned := false }
  | some stTrim =>
      match p.pstPidGainRateP, p.pstPidGainRateD, p.pstPidGainAngleP with
      | some fRateP, some fRateD, some fAngleP =>
          { calls := [Event.FLIGHT_SetTrim stTrim, Event.FLIGHT_SetPidGains fRateP fRateD fAngleP],
            returned := true }
      | _, _, _ => { calls := [Event.FLIGHT_SetTrim stTrim], returned := false }

/-! ## State of the task -/

/-- Modelled from the spec: `stFlightDetails_t` is declared in `IPC_types.h`,
which is not among the sources. The fields are the ones `task_flight.c` uses;
the spec describes the four counters as monotonically increasing counters, so
they are naturals here and the width of their C type is not modelled. The type
of `stAttitude` belongs to the flight controller and is left as a parameter. -/
structure stFlightDetails_t (Att : Type) where
  uiFlightRunCount : Nat
  uiGyroSampleCount : Nat
  uiAccelSampleCount : Nat
  uiFlightTaskMissed : Nat
  stAttitude : Att
  stAttitudeRate : vector3f_t

/-- Modelled from the spec: the driver object `stLSM9DS0_t` is declared in
`SFE_LSM9DS0.h`, which is not among the sources. These are the raw-value
registers `TaskHandler` reads from `stImu`. -/
structure stLSM9DS0_t where
  gx : Int
  gy : Int
  gz : Int
  ax : Int
  ay : Int
  az : Int
  mx : Int
  my : Int
  mz : Int
  temperature : Int
deriving DecidableEq

/-- One raw three-axis sample as the device delivers it. -/
structure RawSample where
  x : Int
  y : Int
  z : Int
deriving DecidableEq

/-- Modelled from the spec: the device scale conversions
`calcGyro/calcAccel/calcMag(raw) -> float` of the IMU driver, which is not
among the sources; they are parameters of the model. -/
structure ImuScale where
  LSM9DS0_calcGyro : Int → ℚ
  LSM9DS0_calcAccel : Int → ℚ
  LSM9DS0_calcMag : Int → ℚ

/-- What the IMU answers during one cycle: the FIFO depths reported by
`LSM9DS0_fifoCountGyro` and `LSM9DS0_fifoCountAccel`, the sample the `k`-th
call (from `0`) of `LSM9DS0_readGyro`, `LSM9DS0_readAccel` delivers in this
cycle, and the temperature `LSM9DS0_readTemp` delivers. -/
structure ImuCycle where
  fifoCountGyro : Nat
  gyroFifo : Nat → RawSample
  fifoCountAccel : Nat
  accelFifo : Nat → RawSample
  temperature : Int

/-- Modelled from the spec: `readGyro()` of the IMU driver populates the raw
gyro registers with the sample read from the device. -/
def LSM9DS0_readGyro (r : RawSample) (stImu : stLSM9DS0_t) : stLSM9DS0_t :=
  { stImu with gx := r.x, gy := r.y, gz := r.z }

/-- Modelled from the spec: `readAccel()` of the IMU driver populates the raw
accelerometer registers with the sample read from the device. -/
def LSM9DS0_readAccel (r : RawSample) (stImu : stLSM9DS0_t) : stLSM9DS0_t :=
  { stImu with ax := r.x, ay := r.y, az := r.z }

/-- Modelled from the spec: `readTemp()` of the IMU driver populates the raw
temperature register. -/
def LSM9DS0_readTemp (t : Int) (stImu : stLSM9DS0_t) : stLSM9DS0_t :=
  { stImu with temperature := t }

/-- Modelled from the spec: `VECTOR3F_Subtract` of `vector3f.h` (not among the
sources), the componentwise difference the spec describes as the bias vector
subtracted from the gyro sample. -/
def VECTOR3F_Subtract (a b : vector3f_t) : vector3f_t :=
  { x := a.x - b.x, y := a.y - b.y, z := a.z - b.z }

/-- The constant `PI` defined at the top of `task_flight.c`. -/
def PI : ℚ := 3.14159265359

/-- The constant `DEG2RAD` defined at the top of `task_flight.c`. -/
def DEG2RAD : ℚ := PI / 180

/-- The variables of `task_flight.c` a cycle works on: the locals `accel`,
`gyro`, `mag` of `TaskHandler` (declared outside the loop, so they keep their
value from one iteration to the next) and the file-level `stImu`, `bDone` and
`stFlightDetails`. -/
structure TaskState (Att : Type) where
  accel : vector3f_t
  gyro : vector3f_t
  mag : vector3f_t
  stImu : stLSM9DS0_t
  bDone : Bool
  stFlightDetails : stFlightDetails_t Att

/-! ## `TimerHandler` -/

/-- The function `TimerHandler` of `task_flight.c`. The second component tells
whether `vTaskResume( xFlightTaskHandle )` was called. -/
def TimerHandler {Att : Type} (s : TaskState Att) : TaskState Att × Bool :=
  if s.bDone = false then
    ({ s with stFlightDetails :=
        { s.stFlightDetails with
            uiFlightTaskMissed := s.stFlightDetails.uiFlightTaskMissed + 1 } }, false)
  else
    (s, true)

/-- The timer firing `n` times in a row with no step of the task in between:
the final state and the number of `vTaskResume` calls made. -/
def fireTimer {Att : Type} : Nat → TaskState Att → TaskState Att × Nat
  | 0, s => (s, 0)
  | n + 1, s =>
      let r := TimerHandler s
      let rest := fireTimer n r.1
      (rest.1, (if r.2 then 1 else 0) + rest.2)

/-! ## The body of the task loop -/

/-- State threaded through a FIFO drain loop: the driver registers, the local
vector the loop assigns (`gyro` or `accel`) and the calls made so far. -/
structure Drain where
  stImu : stLSM9DS0_t
  v : vector3f_t
  log : List Event

/-- The loop `while ( uiCount-- > 0 )` that drains the gyro FIFO. The first
argument is the value of `uiCount` at the loop test; the number of the next
read within the cycle is the number of calls already logged. -/
def drainGyro (sc : ImuScale) (fifo : Nat → RawSample) : Nat → Drain → Drain
  | 0, d => d
  | uiCount + 1, d =>
      let stImu := LSM9DS0_readGyro (fifo d.log.length) d.stImu
      drainGyro sc fifo uiCount
        { stImu := stImu,
          v := { x := sc.LSM9DS0_calcGyro stImu.gx,
                 y := sc.LSM9DS0_calcGyro stImu.gy,
                 z := sc.LSM9DS0_calcGyro stImu.gz },
          log := d.log ++ [Event.LSM9DS0_readGyro] }

/-- The loop `while ( uiCount-- > 0 )` that drains the accelerometer FIFO. -/
def drainAccel (sc : ImuScale) (fifo : Nat → RawSample) : Nat → Drain → Drain
  | 0, d => d
  | uiCount + 1, d =>
      let stImu := LSM9DS0_readAccel (fifo d.log.length) d.stImu
      drainAccel sc fifo uiCount
        { stImu := stImu,
          v := { x := sc.LSM9DS0_calcAccel stImu.ax,
                 y := sc.LSM9DS0_calcAccel stImu.ay,
                 z := sc.LSM9DS0_calcAccel stImu.az },
          log := d.log ++ [Event.LSM9DS0_readAccel] }

/-- First part of the loop body of `TaskHandler`, from
`stFlightDetails.uiFlightRunCount++` to the end of the accelerometer drain
loop: the state reached and the calls made, or `none` when `UpdateParameters`
does not return. The local `uiCount` is a `uint8_t`. -/
def cycleAcquire {Att : Type} (sc : ImuScale) (p : Params) (imu : ImuCycle)
    (s : TaskState Att) : Option (TaskState Att × List Event) :=
  let fd : stFlightDetails_t Att :=
    { s.stFlightDetails with uiFlightRunCount := s.stFlightDetails.uiFlightRunCount + 1 }
  let run := UpdateParameters p
  if run.returned = false then none
  else
    -- Read the gyro fifo
    let uiCount : Nat := imu.fifoCountGyro % 256
    let fd : stFlightDetails_t Att :=
      { fd with uiGyroSampleCount := fd.uiGyroSampleCount + uiCount }
    let dg := drainGyro sc imu.gyroFifo uiCount { stImu := s.stImu, v := s.gyro, log := [] }
    -- Read the accel fifo
    let uiCount : Nat := imu.fifoCountAccel % 256
    let fd : stFlightDetails_t Att :=
      { fd with uiAccelSampleCount := fd.uiAccelSampleCount + uiCount }
    let da := drainAccel sc imu.accelFifo uiCount { stImu := dg.stImu, v := s.accel, log := [] }
    some ({ s with accel := da.v, gyro := dg.v, stImu := da.stImu, stFlightDetails := fd },
      run.calls ++ [Event.LSM9DS0_fifoCountGyro] ++ dg.log
        ++ [Event.LSM9DS0_fifoCountAccel] ++ da.log)

/-- Second part of the loop body of `TaskHandler`, from the magnetometer scaling
to `PUBSUB_Publish( TOPIC_FLIGHT_DETAILS, ... )`. The value `rotation` is what
`FLIGHT_GetRotation` writes. The receiver inputs and the motor outputs, which
go from and to the IO driver through the flight controller and touch none of
the variables of `TaskState`, are left out. The result is `none` when
`GetBias` reads outside its table. -/
def cycleProcess {Att : Type} (sc : ImuScale) (imu : ImuCycle) (rotation : Att)
    (s : TaskState Att) : Option (TaskState Att × List Event) :=
  let mag : vector3f_t :=
    { x := sc.LSM9DS0_calcMag s.stImu.mx,
      y := sc.LSM9DS0_calcMag s.stImu.my,
      z := sc.LSM9DS0_calcMag s.stImu.mz }
  -- Calculate and apply gyro bias
  let stImu := LSM9DS0_readTemp imu.temperature s.stImu
  match GetBias (toInt16 stImu.temperature) with
  | none => none
  | some stGyroBias =>
      let gyro := VECTOR3F_Subtract s.gyro stGyroBias
      let gyro : vector3f_t :=
        { x := gyro.x * DEG2RAD, y := gyro.y * DEG2RAD, z := gyro.z * DEG2RAD }
      -- Publish flight details
      let fd : stFlightDetails_t Att :=
        { s.stFlightDetails with stAttitude := rotation, stAttitudeRate := gyro }
      some ({ s with gyro := gyro, mag := mag, stImu := stImu, stFlightDetails := fd },
        [Event.LSM9DS0_readTemp, Event.flight_process s.accel gyro mag,
         Event.FLIGHT_GetRotation, Event.PUBSUB_Publish])

/-- What the collaborators of the task supply during one cycle. -/
structure CycleInput (Att : Type) where
  params : Params
  imu : ImuCycle
  rotation : Att

/-- The loop body of `TaskHandler` between `bDone = false` and `bDone = true`. -/
def cycleBody {Att : Type} (sc : ImuScale) (inp : CycleInput Att) (s : TaskState Att) :
    Option (TaskState Att × List Event) :=
  match cycleAcquire sc inp.params inp.imu s with
  | none => none
  | some (s1, log1) =>
      match cycleProcess sc inp.imu inp.rotation s1 with
      | none => none
      | some (s2, log2) => some (s2, log1 ++ log2)

/-- The loop of `TaskHandler`, run for one iteration per element of `inps`
(the task is suspended and resumed between two iterations): `bDone = false`,
the loop body, `bDone = true`. The result is the state after the last
iteration and every call made, or `none` when an iteration does not complete. -/
def TaskHandler {Att : Type} (sc : ImuScale) :
    List (CycleInput Att) → TaskState Att → Option (TaskState Att × List Event)
  | [], s => some (s, [])
  | inp :: rest, s =>
      match cycleBody sc inp { s with bDone := false } with
      | none => none
      | some (s1, log1) =>
          match TaskHandler sc rest { s1 with bDone := true } with
          | none => none
          | some (s2, log2) => some (s2, log1 ++ log2)

/-! ## The task and the timer as a step relation -/

/-- Where the task stands in its loop: before `bDone = false`, in the body,
before `bDone = true`, before `vTaskSuspend( NULL )`. -/
inductive TaskPc where
  | atClear
  | atBody
  | atSet
  | atSuspend
deriving DecidableEq

/-- The task together with its scheduling state. -/
structure Sched (Att : Type) where
  task : TaskState Att
  pc : TaskPc
  suspended : Bool

/-- The steps of the system: the four steps of the task loop and a firing of
the timer. -/
inductive Action (Att : Type) where
  | clear
  | body (inp : CycleInput Att)
  | setDone
  | suspend
  | timer

/-- Modelled from the spec: `vTaskResume` and `vTaskSuspend` belong to FreeRTOS,
which is not among the sources. A suspended task takes no step; the task
leaves the suspended state only through the resume call of the timer callback,
and a resume of a task that is not suspended has no effect (resumes are not
queued). The step function gives `none` when the action cannot be taken in
the state. -/
def step {Att : Type} (sc : ImuScale) (a : Action Att) (s : Sched Att) : Option (Sched Att) :=
  match a with
  | Action.clear =>
      if s.suspended = false ∧ s.pc = TaskPc.atClear then
        some { s with task := { s.task with bDone := false }, pc := TaskPc.atBody }
      else none
  | Action.body inp =>
      if s.suspended = false ∧ s.pc = TaskPc.atBody then
        match cycleBody sc inp s.task with
        | some (t, _) => some { s with task := t, pc := TaskPc.atSet }
        | none => none
      else none
  | Action.setDone =>
      if s.suspended = false ∧ s.pc = TaskPc.atSet then
        some { s with task := { s.task with bDone := true }, pc := TaskPc.atSuspend }
      else none
  | Action.suspend =>
      if s.suspended = false ∧ s.pc = TaskPc.atSuspend then
        some { s with suspended := true, pc := TaskPc.atClear }
      else none
  | Action.timer =>
      let r := TimerHandler s.task
      some { s with task := r.1, suspended := if r.2 then false else s.suspended }

/-- Runs a sequence of actions, first to last. -/
def run {Att : Type} (sc : ImuScale) : List (Action Att) → Sched Att → Option (Sched Att)
  | [], s => some s
  | a :: rest, s =>
      match step sc a s with
      | some s1 => run sc rest s1
      | none => none

/-- The state in which `TaskHandler` reaches its loop for the first time:
`bDone` is still zero, `stFlightDetails` has its counters cleared by `memset`,
the timer is started, and the locals and the driver registers hold whatever
they hold (`att0` stands for the cleared `stAttitude`). -/
def initial {Att : Type} (accel gyro mag : vector3f_t) (stImu : stLSM9DS0_t) (att0 : Att) :
    Sched Att :=
  { task :=
      { accel := accel, gyro := gyro, mag := mag, stImu := stImu, bDone := false,
        stFlightDetails :=
          { uiFlightRunCount := 0, uiGyroSampleCount := 0, uiAccelSampleCount := 0,
            uiFlightTaskMissed := 0, stAttitude := att0,
            stAttitudeRate := { x := 0, y := 0, z := 0 } } },
    pc := TaskPc.atClear,
    suspended := false }

/-- A cycle is in progress: the task has cleared `bDone` and not yet set it
again. -/
def cycleInProgress {Att : Type} (s : Sched Att) : Prop :=
  s.pc = TaskPc.atBody ∨ s.pc = TaskPc.atSet

instance {Att : Type} (s : Sched Att) : Decidable (cycleInProgress s) := by
  unfold cycleInProgress
  infer_instance

/-- Tells whether the action is the start of a cycle (`bDone = false`). -/
def Action.isClear {Att : Type} : Action Att → Bool
  | Action.clear => true
  | _ => false

/-- Tells whether the action is the end of a cycle (`bDone = true`). -/
def Action.isSetDone {Att : Type} : Action Att → Bool
  | Action.setDone => true
  | _ => false

/-- Tells whether the call is a call of `flight_process`. -/
def Event.isFlightProcess : Event → Bool
  | Event.flight_process _ _ _ => true
  | _ => false

/-! ## Concrete objects used to instantiate the theorems -/

/-- A scale conversion that multiplies the raw value by a resolution, as an
example of the driver's `calc` functions. -/
def exampleScale : ImuScale :=
  { LSM9DS0_calcGyro := fun raw => (raw : ℚ) * (35 / 2000),
    LSM9DS0_calcAccel := fun raw => (raw : ℚ) * (1 / 4096),
    LSM9DS0_calcMag := fun raw => (raw : ℚ) * (1 / 8192) }

/-- A task state with `bDone` false and some counts already accumulated. -/
def exampleTask : TaskState Unit :=
  { accel := { x := 0, y := 0, z := 1 },
    gyro := { x := 0, y := 0, z := 0 },
    mag := { x := 0, y := 0, z := 0 },
    stImu := { gx := 0, gy := 0, gz := 0, ax := 0, ay := 0, az := 0,
               mx := 0, my := 0, mz := 0, temperature := 0 },
    bDone := false,
    stFlightDetails :=
      { uiFlightRunCount := 7, uiGyroSampleCount := 20, uiAccelSampleCount := 30,
        uiFlightTaskMissed := 2, stAttitude := (),
        stAttitudeRate := { x := 0, y := 0, z := 0 } } }

/-- The task in the middle of a cycle body. -/
def exampleSched : Sched Unit :=
  { task := exampleTask, pc := TaskPc.atBody, suspended := false }

/-- Parameter pointers with the three trims and the three rate/angle gains
found and the two yaw-rate gains not found. -/
def exampleParams : Params :=
  { pstTrimRoll := some 1, pstTrimPitch := some 2, pstTrimYaw := some 3,
    pstPidGainRateP := some 4, pstPidGainRateD := some 5, pstPidGainAngleP := some 6,
    pstPidGainRateYawP := none, pstPidGainRateYawD := none }

/-- An IMU with three gyro samples and five accelerometer samples queued, all
different, at 23 degrees. -/
def exampleImu : ImuCycle :=
  { fifoCountGyro := 3,
    gyroFifo := fun k => RawSample.mk (100 * ((k : Int) + 1)) (200 * ((k : Int) + 1)) (-100 * ((k : Int) + 1)),
    fifoCountAccel := 5,
    accelFifo := fun k => RawSample.mk 0 (8 * ((k : Int) + 1)) 4096,
    temperature := 23 }

/-- The inputs of one cycle built from `exampleParams` and `exampleImu`. -/
def exampleInput : CycleInput Unit :=
  { params := exampleParams, imu := exampleImu, rotation := () }

/-- One full cycle with a timer tick during the body and one after it. -/
def exampleRun : List (Action Unit) :=
  [Action.clear, Action.timer, Action.body exampleInput, Action.setDone, Action.timer,
   Action.suspend]

/-- The state at the first entry of the loop, with every local and register
zero. -/
def exampleInitial : Sched Unit :=
  initial { x := 0, y := 0, z := 0 } { x := 0, y := 0, z := 0 } { x := 0, y := 0, z := 0 }
    { gx := 0, gy := 0, gz := 0, ax := 0, ay := 0, az := 0,
      mx := 0, my := 0, mz := 0, temperature := 0 }
    ()

/-- Parameter pointers with only `TrimYaw` found among the trims. -/
def exampleParamsYawOnly : Params :=
  { pstTrimRoll := none, pstTrimPitch := none, pstTrimYaw := some 3,
    pstPidGainRateP := some 4, pstPidGainRateD := some 5, pstPidGainAngleP := some 6,
    pstPidGainRateYawP := none, pstPidGainRateYawD := none }

/-- Parameter pointers with `TrimYaw` and the gains not found. -/
def exampleParamsNoYaw : Params :=
  { pstTrimRoll := some 1, pstTrimPitch := some 2, pstTrimYaw := none,
    pstPidGainRateP := none, pstPidGainRateD := none, pstPidGainAngleP := none,
    pstPidGainRateYawP := none, pstPidGainRateYawD := none }

/-- The inputs of a cycle in which the gyro FIFO is empty and the
accelerometer FIFO holds two samples, at 30 degrees. -/
def exampleInputEmptyGyro : CycleInput Unit :=
  { params := exampleParams,
    imu :=
      { fifoCountGyro := 0,
        gyroFifo := fun _ => RawSample.mk 0 0 0,
        fifoCountAccel := 2,
        accelFifo := fun k => RawSample.mk 0 (8 * ((k : Int) + 1)) 4096,
        temperature := 30 },
    rotation := () }

/-! ## Scan of the bias table -/

theorem scan_below (iTemp : Int) (h : iTemp < 3) :
    scanBiasTable iTemp astGyroBiasTable 0 = 0 := by
  simp [scanBiasTable, astGyroBiasTable, h]

theorem scan_between (iTemp : Int) (h1 : 3 ≤ iTemp) (h2 : iTemp < 43) :
    scanBiasTable iTemp astGyroBiasTable 0 = 1 := by
  have h3 : ¬ iTemp < 3 := by omega
  simp [scanBiasTable, astGyroBiasTable, h3, h2]

theorem scan_above (iTemp : Int) (h : 43 ≤ iTemp) :
    scanBiasTable iTemp astGyroBiasTable 0 = 2 := by
  have h3 : ¬ iTemp < 3 := by omega
  have h4 : ¬ iTemp < 43 := by omega
  simp [scanBiasTable, astGyroBiasTable, h3, h4]

theorem toInt16_of_small (v : Int) (h1 : -32768 ≤ v) (h2 : v < 32768) : toInt16 v = v := by
  unfold toInt16
  omega

/-- Value of `GetBias` in the interpolation branch, in the order the source
computes it: range times scale, plus the lower bias. -/
theorem GetBias_between (iTemp : Int) (h1 : 3 ≤ iTemp) (h2 : iTemp < 43) :
    GetBias iTemp =
      some { x := (-0.500 - -0.618) * (((iTemp - 3 : Int) : ℚ) / 40) + -0.618,
             y := (0.380 - 0.900) * (((iTemp - 3 : Int) : ℚ) / 40) + 0.900,
             z := (4.200 - 1.000) * (((iTemp - 3 : Int) : ℚ) / 40) + 1.000 } := by
  have hd : toInt16 (iTemp - 3) = iTemp - 3 := toInt16_of_small _ (by omega) (by omega)
  have hr : toInt16 40 = 40 := by decide
  have hs := scan_between iTemp h1 h2
  unfold GetBias GetBiasIn
  rw [hs]
  simp [astGyroBiasTable, hd, hr]

/-! ## Claims on `GetBias` -/

/-- C1: for every temperature strictly between the two table temperatures
(`3 < iTemp < 43`) `GetBias` returns, componentwise and in exact arithmetic,
`lower.bias + (iTemp - lower.temp) / (upper.temp - lower.temp) * (upper.bias - lower.bias)`
for the two table entries `{3, (-0.618, 0.900, 1.000)}` and
`{43, (-0.500, 0.380, 4.200)}`; and `GetBias(23)` is `(-0.559, 0.640, 2.600)`. -/
theorem C1_GetBias_linear_interpolation (iTemp : Int) (h1 : 3 < iTemp) (h2 : iTemp < 43) :
    astGyroBiasTable =
        [ { iTemp := 3, stBias := { x := -0.618, y := 0.900, z := 1.000 } },
          { iTemp := 43, stBias := { x := -0.500, y := 0.380, z := 4.200 } } ] ∧
      GetBias iTemp =
        some { x := -0.618 + ((iTemp : ℚ) - 3) / (43 - 3) * (-0.500 - -0.618),
               y := 0.900 + ((iTemp : ℚ) - 3) / (43 - 3) * (0.380 - 0.900),
               z := 1.000 + ((iTemp : ℚ) - 3) / (43 - 3) * (4.200 - 1.000) } ∧
      GetBias 23 = some { x := -0.559, y := 0.640, z := 2.600 } := by
  refine ⟨rfl, ?_, ?_⟩
  · rw [GetBias_between iTemp (by omega) h2]
    simp only [Option.some.injEq, vector3f_t.mk.injEq]
    push_cast
    refine ⟨?_, ?_, ?_⟩ <;> ring
  · rw [GetBias_between 23 (by decide) (by decide)]
    simp only [Option.some.injEq, vector3f_t.mk.injEq]
    refine ⟨?_, ?_, ?_⟩ <;> norm_num

/-- Witness of C1 at `iTemp = 23`. -/
theorem C1_GetBias_linear_interpolation_witness :
    ((3 : Int) < 23 ∧ (23 : Int) < 43) ∧
      GetBias 23 =
        some { x := -0.618 + (((23 : Int) : ℚ) - 3) / (43 - 3) * (-0.500 - -0.618),
               y := 0.900 + (((23 : Int) : ℚ) - 3) / (43 - 3) * (0.380 - 0.900),
               z := 1.000 + (((23 : Int) : ℚ) - 3) / (43 - 3) * (4.200 - 1.000) } :=
  ⟨⟨by decide, by decide⟩, (C1_GetBias_linear_interpolation 23 (by decide) (by decide)).2.1⟩

/-- C2 (the code departs from the claim): at `iTemp = 43`, the temperature of
the last table entry, the scan of `GetBias` ends with `uiIndex = 2`, the
length of the table, and the function returns `astGyroBiasTable[ 2 ].stBias`,
an entry that does not exist, instead of the bias of the last entry (index
`1`). -/
theorem C2_GetBias_reads_past_table_end :
    scanBiasTable 43 astGyroBiasTable 0 = 2 ∧
      astGyroBiasTable.length = 2 ∧
      astGyroBiasTable[2]? = none ∧
      GetBias 43 = none ∧
      GetBias 43 ≠ some { x := -0.500, y := 0.380, z := 4.200 } := by
  have hs := scan_above 43 (by decide)
  have hg : GetBias 43 = none := by
    unfold GetBias GetBiasIn
    rw [hs]
    simp [astGyroBiasTable]
  refine ⟨hs, rfl, rfl, hg, ?_⟩
  rw [hg]
  simp

/-- C3: for every temperature at or below the temperature of the lowest table
entry (`iTemp <= 3`, the tie `iTemp = 3` going through the interpolation
branch) `GetBias` returns exactly the bias of the first table entry,
`(-0.618, 0.900, 1.000)`. -/
theorem C3_GetBias_at_or_below_lowest (iTemp : Int) (h : iTemp ≤ 3) :
    GetBias iTemp = some { x := -0.618, y := 0.900, z := 1.000 } ∧
      (iTemp = 3 → scanBiasTable iTemp astGyroBiasTable 0 = 1) := by
  constructor
  · rcases lt_or_eq_of_le h with hlt | heq
    · have hs := scan_below iTemp hlt
      unfold GetBias GetBiasIn
      rw [hs]
      simp [astGyroBiasTable]
    · subst heq
      rw [GetBias_between 3 (by decide) (by decide)]
      simp only [Option.some.injEq, vector3f_t.mk.injEq]
      refine ⟨?_, ?_, ?_⟩ <;> norm_num
  · intro h3
    exact scan_between iTemp (by omega) (by omega)

/-- Witness of C3 at the tie `iTemp = 3`. -/
theorem C3_GetBias_at_or_below_lowest_witness :
    (3 : Int) ≤ 3 ∧ GetBias 3 = some { x := -0.618, y := 0.900, z := 1.000 } :=
  ⟨by decide, (C3_GetBias_at_or_below_lowest 3 (by decide)).1⟩

/-! ## Claims on `TimerHandler` and the scheduling of the task -/

theorem TimerHandler_not_done {Att : Type} (s : TaskState Att) (h : s.bDone = false) :
    TimerHandler s =
      ({ s with stFlightDetails :=
          { s.stFlightDetails with
              uiFlightTaskMissed := s.stFlightDetails.uiFlightTaskMissed + 1 } }, false) := by
  simp [TimerHandler, h]

theorem TimerHandler_done {Att : Type} (s : TaskState Att) (h : s.bDone = true) :
    TimerHandler s = (s, true) := by
  simp [TimerHandler, h]

theorem fireTimer_not_done {Att : Type} (n : Nat) (s : TaskState Att) (h : s.bDone = false) :
    fireTimer n s =
      ({ s with stFlightDetails :=
          { s.stFlightDetails with
              uiFlightTaskMissed := s.stFlightDetails.uiFlightTaskMissed + n } }, 0) := by
  induction n generalizing s with
  | zero => rfl
  | succ k ih =>
      have hr := TimerHandler_not_done s h
      have hb : (TimerHandler s).1.bDone = false := by rw [hr]; exact h
      unfold fireTimer
      simp only [ih _ hb]
      rw [hr]
      simp [Nat.add_assoc, Nat.add_comm 1 k]

theorem run_timers_not_done {Att : Type} (sc : ImuScale) (n : Nat) (c : Sched Att)
    (h : c.task.bDone = false) :
    run sc (List.replicate n Action.timer) c =
      some { c with task := { c.task with stFlightDetails :=
          { c.task.stFlightDetails with
              uiFlightTaskMissed := c.task.stFlightDetails.uiFlightTaskMissed + n } } } := by
  induction n generalizing c with
  | zero => rfl
  | succ k ih =>
      have hr := TimerHandler_not_done c.task h
      have hs : step sc Action.timer c =
          some { c with task := (TimerHandler c.task).1 } := by
        simp [step, hr]
      have hb : (TimerHandler c.task).1.bDone = false := by rw [hr]; exact h
      rw [List.replicate_succ]
      unfold run
      rw [hs]
      simp only []
      rw [ih _ hb, hr]
      simp [Nat.add_assoc, Nat.add_comm 1 k]

/-- C4: `n` consecutive firings of `TimerHandler` while `bDone` is false
increase `uiFlightTaskMissed` by exactly `n` (by exactly `1` per firing), call
`vTaskResume` not once, and leave `bDone`, the other counters and the
position and scheduling state of the task unchanged: no catch-up cycle is
queued. It holds for every `n`, so for every `n >= 1`. -/
theorem C4_missed_ticks_are_counted_not_resumed {Att : Type} (sc : ImuScale) (n : Nat)
    (c : Sched Att) (h : c.task.bDone = false) :
    fireTimer n c.task =
        ({ c.task with stFlightDetails :=
            { c.task.stFlightDetails with
                uiFlightTaskMissed := c.task.stFlightDetails.uiFlightTaskMissed + n } }, 0) ∧
      run sc (List.replicate n Action.timer) c =
        some { c with task := { c.task with stFlightDetails :=
            { c.task.stFlightDetails with
                uiFlightTaskMissed := c.task.stFlightDetails.uiFlightTaskMissed + n } } } ∧
      (TimerHandler c.task).2 = false ∧
      (TimerHandler c.task).1.stFlightDetails.uiFlightTaskMissed =
        c.task.stFlightDetails.uiFlightTaskMissed + 1 := by
  refine ⟨fireTimer_not_done n c.task h, run_timers_not_done sc n c h, ?_, ?_⟩
  · rw [TimerHandler_not_done c.task h]
  · rw [TimerHandler_not_done c.task h]

/-- Witness of C4: three firings during a cycle body take the counter of
missed ticks from `2` to `5` with no resume. -/
theorem C4_missed_ticks_are_counted_not_resumed_witness :
    exampleSched.task.bDone = false ∧
      (fireTimer 3 exampleSched.task).1.stFlightDetails.uiFlightTaskMissed = 5 ∧
      (fireTimer 3 exampleSched.task).2 = 0 :=
  ⟨rfl,
   by rw [(C4_missed_ticks_are_counted_not_resumed exampleScale 3 exampleSched rfl).1]; rfl,
   by rw [(C4_missed_ticks_are_counted_not_resumed exampleScale 3 exampleSched rfl).1]⟩

theorem cycleAcquire_bDone {Att : Type} (sc : ImuScale) (p : Params) (imu : ImuCycle)
    (s s1 : TaskState Att) (log : List Event)
    (h : cycleAcquire sc p imu s = some (s1, log)) : s1.bDone = s.bDone := by
  unfold cycleAcquire at h
  dsimp only at h
  split at h
  · exact absurd h (by simp)
  · simp only [Option.some.injEq, Prod.mk.injEq] at h
    rw [← h.1]

theorem cycleProcess_bDone {Att : Type} (sc : ImuScale) (imu : ImuCycle) (rotation : Att)
    (s s2 : TaskState Att) (log : List Event)
    (h : cycleProcess sc imu rotation s = some (s2, log)) : s2.bDone = s.bDone := by
  unfold cycleProcess at h
  dsimp only at h
  split at h
  · exact absurd h (by simp)
  · simp only [Option.some.injEq, Prod.mk.injEq] at h
    rw [← h.1]

theorem cycleBody_bDone {Att : Type} (sc : ImuScale) (inp : CycleInput Att)
    (s s2 : TaskState Att) (log : List Event)
    (h : cycleBody sc inp s = some (s2, log)) : s2.bDone = s.bDone := by
  unfold cycleBody at h
  split at h
  · exact absurd h (by simp)
  · rename_i s1 log1 h1
    split at h
    · exact absurd h (by simp)
    · rename_i s3 log3 h3
      simp only [Option.some.injEq, Prod.mk.injEq] at h
      rw [← h.1, cycleProcess_bDone sc inp.imu inp.rotation s1 s3 log3 h3,
        cycleAcquire_bDone sc inp.params inp.imu s s1 log1 h1]

/-- While a cycle is in progress `bDone` is false: the property is kept by
every step. -/
theorem step_keeps_flag {Att : Type} (sc : ImuScale) (a : Action Att) (s s1 : Sched Att)
    (hinv : cycleInProgress s → s.task.bDone = false) (h : step sc a s = some s1) :
    cycleInProgress s1 → s1.task.bDone = false := by
  cases a with
  | clear =>
      simp only [step] at h
      split at h
      · simp only [Option.some.injEq] at h
        subst h
        intro _
        rfl
      · exact absurd h (by simp)
  | body inp =>
      simp only [step] at h
      split at h
      · rename_i hen
        split at h
        · rename_i t lg ht
          simp only [Option.some.injEq] at h
          subst h
          intro _
          have hb := cycleBody_bDone sc inp s.task t lg ht
          simp only [hb]
          exact hinv (Or.inl hen.2)
        · exact absurd h (by simp)
      · exact absurd h (by simp)
  | setDone =>
      simp only [step] at h
      split at h
      · simp only [Option.some.injEq] at h
        subst h
        intro hp
        simp [cycleInProgress] at hp
      · exact absurd h (by simp)
  | suspend =>
      simp only [step] at h
      split at h
      · simp only [Option.some.injEq] at h
        subst h
        intro hp
        simp [cycleInProgress] at hp
      · exact absurd h (by simp)
  | timer =>
      simp only [step, Option.some.injEq] at h
      subst h
      intro hp
      have hb : s.task.bDone = false := hinv hp
      simp [TimerHandler_not_done s.task hb, hb]

theorem run_keeps_flag {Att : Type} (sc : ImuScale) (acts : List (Action Att))
    (s s1 : Sched Att) (hinv : cycleInProgress s → s.task.bDone = false)
    (h : run sc acts s = some s1) : cycleInProgress s1 → s1.task.bDone = false := by
  induction acts generalizing s with
  | nil =>
      simp only [run, Option.some.injEq] at h
      subst h
      exact hinv
  | cons a rest ih =>
      simp only [run] at h
      split at h
      · rename_i s2 h2
        exact ih s2 (step_keeps_flag sc a s s2 hinv h2) h
      · exact absurd h (by simp)

/-- One step changes the number of cycles started, the number of cycles ended
and the position of the task consistently. -/
theorem step_counts {Att : Type} (sc : ImuScale) (a : Action Att) (s s1 : Sched Att)
    (h : step sc a s = some s1) :
    (if a.isClear then 1 else 0) + (if cycleInProgress s then 1 else 0) =
      (if a.isSetDone then 1 else 0) + (if cycleInProgress s1 then 1 else 0) := by
  cases a with
  | clear =>
      simp only [step] at h
      split at h
      · rename_i hen
        simp only [Option.some.injEq] at h
        subst h
        simp [Action.isClear, Action.isSetDone, cycleInProgress, hen.2]
      · exact absurd h (by simp)
  | body inp =>
      simp only [step] at h
      split at h
      · rename_i hen
        split at h
        · simp only [Option.some.injEq] at h
          subst h
          simp [Action.isClear, Action.isSetDone, cycleInProgress, hen.2]
        · exact absurd h (by simp)
      · exact absurd h (by simp)
  | setDone =>
      simp only [step] at h
      split at h
      · rename_i hen
        simp only [Option.some.injEq] at h
        subst h
        simp [Action.isClear, Action.isSetDone, cycleInProgress, hen.2]
      · exact absurd h (by simp)
  | suspend =>
      simp only [step] at h
      split at h
      · rename_i hen
        simp only [Option.some.injEq] at h
        subst h
        simp [Action.isClear, Action.isSetDone, cycleInProgress, hen.2]
      · exact absurd h (by simp)
  | timer =>
      simp only [step, Option.some.injEq] at h
      subst h
      simp [Action.isClear, Action.isSetDone, cycleInProgress]

theorem run_counts {Att : Type} (sc : ImuScale) (acts : List (Action Att))
    (s s1 : Sched Att) (h : run sc acts s = some s1) :
    acts.countP Action.isClear + (if cycleInProgress s then 1 else 0) =
      acts.countP Action.isSetDone + (if cycleInProgress s1 then 1 else 0) := by
  induction acts generalizing s with
  | nil =>
      simp only [run, Option.some.injEq] at h
      subst h
      simp
  | cons a rest ih =>
      simp only [run] at h
      split at h
      · rename_i s2 h2
        have h3 := ih s2 h
        have h4 := step_counts sc a s s2 h2
        simp only [List.countP_cons]
        omega
      · exact absurd h (by simp)

/-- C5: in every state reachable from the first entry of the loop by steps of
the task (clear `bDone`, run the body, set `bDone`, suspend) and firings of
the timer, `TimerHandler` calls `vTaskResume` if and only if `bDone` is true,
and then leaves `uiFlightTaskMissed` as it is; while a cycle is in progress
`bDone` is false, so no resume is issued then; and the cycles started exceed
the cycles ended by one while a cycle is in progress and by none otherwise,
so at most one cycle body executes at a time. -/
theorem C5_resume_only_between_cycles {Att : Type} (sc : ImuScale)
    (accel gyro mag : vector3f_t) (stImu : stLSM9DS0_t) (att0 : Att)
    (acts : List (Action Att)) (s : Sched Att)
    (h : run sc acts (initial accel gyro mag stImu att0) = some s) :
    ((TimerHandler s.task).2 = true ↔ s.task.bDone = true) ∧
      (s.task.bDone = true →
        (TimerHandler s.task).1.stFlightDetails.uiFlightTaskMissed =
          s.task.stFlightDetails.uiFlightTaskMissed) ∧
      (cycleInProgress s → s.task.bDone = false ∧ (TimerHandler s.task).2 = false) ∧
      acts.countP Action.isClear =
        acts.countP Action.isSetDone + (if cycleInProgress s then 1 else 0) ∧
      acts.countP Action.isClear ≤ acts.countP Action.isSetDone + 1 := by
  have hflag : cycleInProgress s → s.task.bDone = false :=
    run_keeps_flag sc acts _ s (by intro hp; simp [cycleInProgress, initial] at hp) h
  have hcount := run_counts sc acts _ s h
  have h0 : ¬ cycleInProgress (initial accel gyro mag stImu att0) := by
    simp [cycleInProgress, initial]
  rw [if_neg h0] at hcount
  refine ⟨?_, ?_, ?_, ?_, ?_⟩
  · cases hb : s.task.bDone
    · simp [TimerHandler_not_done s.task hb]
    · simp [TimerHandler_done s.task hb]
  · intro hb
    rw [TimerHandler_done s.task hb]
  · intro hp
    have hb := hflag hp
    exact ⟨hb, by rw [TimerHandler_not_done s.task hb]⟩
  · omega
  · split at hcount <;> omega

/-- Witness of C5: the run `exampleRun` (a tick during the body, a tick between
the end of the cycle and the suspension) is possible, and C5 holds of the
state it leads to. -/
theorem C5_resume_only_between_cycles_witness :
    ∃ s : Sched Unit, run exampleScale exampleRun exampleInitial = some s ∧
      s.task.stFlightDetails.uiFlightTaskMissed = 1 ∧
      ((TimerHandler s.task).2 = true ↔ s.task.bDone = true) ∧
      exampleRun.countP Action.isClear ≤ exampleRun.countP Action.isSetDone + 1 := by
  obtain ⟨s, hs⟩ := Option.isSome_iff_exists.mp
    (show (run exampleScale exampleRun exampleInitial).isSome = true by decide)
  have hm : (run exampleScale exampleRun exampleInitial).map
      (fun t => t.task.stFlightDetails.uiFlightTaskMissed) = some 1 := by decide
  have hc := C5_resume_only_between_cycles exampleScale _ _ _ _ () exampleRun s hs
  refine ⟨s, hs, ?_, hc.1, hc.2.2.2.2⟩
  rw [hs] at hm
  simpa using hm

/-! ## Claims on the FIFO drains and the sample counters -/

theorem drainGyro_succ (sc : ImuScale) (fifo : Nat → RawSample) (n : Nat) (d : Drain) :
    drainGyro sc fifo (n + 1) d =
      { stImu := LSM9DS0_readGyro (fifo (d.log.length + n)) d.stImu,
        v := { x := sc.LSM9DS0_calcGyro (fifo (d.log.length + n)).x,
               y := sc.LSM9DS0_calcGyro (fifo (d.log.length + n)).y,
               z := sc.LSM9DS0_calcGyro (fifo (d.log.length + n)).z },
        log := d.log ++ List.replicate (n + 1) Event.LSM9DS0_readGyro } := by
  induction n generalizing d with
  | zero => simp [drainGyro, LSM9DS0_readGyro]
  | succ k ih =>
      rw [drainGyro, ih]
      simp [LSM9DS0_readGyro, List.replicate_succ, Nat.add_assoc, Nat.add_comm 1 k]

theorem drainAccel_succ (sc : ImuScale) (fifo : Nat → RawSample) (n : Nat) (d : Drain) :
    drainAccel sc fifo (n + 1) d =
      { stImu := LSM9DS0_readAccel (fifo (d.log.length + n)) d.stImu,
        v := { x := sc.LSM9DS0_calcAccel (fifo (d.log.length + n)).x,
               y := sc.LSM9DS0_calcAccel (fifo (d.log.length + n)).y,
               z := sc.LSM9DS0_calcAccel (fifo (d.log.length + n)).z },
        log := d.log ++ List.replicate (n + 1) Event.LSM9DS0_readAccel } := by
  induction n generalizing d with
  | zero => simp [drainAccel, LSM9DS0_readAccel]
  | succ k ih =>
      rw [drainAccel, ih]
      simp [LSM9DS0_readAccel, List.replicate_succ, Nat.add_assoc, Nat.add_comm 1 k]

/-- The calls logged by a gyro drain: one read per unit of `uiCount`. -/
theorem drainGyro_log (sc : ImuScale) (fifo : Nat → RawSample) (n : Nat) (d : Drain) :
    (drainGyro sc fifo n d).log = d.log ++ List.replicate n Event.LSM9DS0_readGyro := by
  cases n with
  | zero => simp [drainGyro]
  | succ k => rw [drainGyro_succ]

/-- The calls logged by an accelerometer drain: one read per unit of `uiCount`. -/
theorem drainAccel_log (sc : ImuScale) (fifo : Nat → RawSample) (n : Nat) (d : Drain) :
    (drainAccel sc fifo n d).log = d.log ++ List.replicate n Event.LSM9DS0_readAccel := by
  cases n with
  | zero => simp [drainAccel]
  | succ k => rw [drainAccel_succ]

/-- The result of `cycleAcquire` when `UpdateParameters` returns. -/
theorem cycleAcquire_returned {Att : Type} (sc : ImuScale) (p : Params) (imu : ImuCycle)
    (s : TaskState Att) (hp : (UpdateParameters p).returned = true) :
    cycleAcquire sc p imu s =
      some
        ({ s with
            accel := (drainAccel sc imu.accelFifo (imu.fifoCountAccel % 256)
              { stImu := (drainGyro sc imu.gyroFifo (imu.fifoCountGyro % 256)
                  { stImu := s.stImu, v := s.gyro, log := [] }).stImu,
                v := s.accel, log := [] }).v,
            gyro := (drainGyro sc imu.gyroFifo (imu.fifoCountGyro % 256)
              { stImu := s.stImu, v := s.gyro, log := [] }).v,
            stImu := (drainAccel sc imu.accelFifo (imu.fifoCountAccel % 256)
              { stImu := (drainGyro sc imu.gyroFifo (imu.fifoCountGyro % 256)
                  { stImu := s.stImu, v := s.gyro, log := [] }).stImu,
                v := s.accel, log := [] }).stImu,
            stFlightDetails :=
              { s.stFlightDetails with
                  uiFlightRunCount := s.stFlightDetails.uiFlightRunCount + 1,
                  uiGyroSampleCount :=
                    s.stFlightDetails.uiGyroSampleCount + imu.fifoCountGyro % 256,
                  uiAccelSampleCount :=
                    s.stFlightDetails.uiAccelSampleCount + imu.fifoCountAccel % 256 } },
          (UpdateParameters p).calls ++ [Event.LSM9DS0_fifoCountGyro]
            ++ List.replicate (imu.fifoCountGyro % 256) Event.LSM9DS0_readGyro
            ++ [Event.LSM9DS0_fifoCountAccel]
            ++ List.replicate (imu.fifoCountAccel % 256) Event.LSM9DS0_readAccel) := by
  unfold cycleAcquire
  simp [hp, drainGyro_log, drainAccel_log]

/-- The second part of the loop body leaves the four counters as they are. -/
theorem cycleProcess_counters {Att : Type} (sc : ImuScale) (imu : ImuCycle) (rotation : Att)
    (s s2 : TaskState Att) (log : List Event)
    (h : cycleProcess sc imu rotation s = some (s2, log)) :
    s2.stFlightDetails.uiFlightRunCount = s.stFlightDetails.uiFlightRunCount ∧
      s2.stFlightDetails.uiGyroSampleCount = s.stFlightDetails.uiGyroSampleCount ∧
      s2.stFlightDetails.uiAccelSampleCount = s.stFlightDetails.uiAccelSampleCount ∧
      s2.stFlightDetails.uiFlightTaskMissed = s.stFlightDetails.uiFlightTaskMissed := by
  unfold cycleProcess at h
  dsimp only at h
  split at h
  · exact absurd h (by simp)
  · simp only [Option.some.injEq, Prod.mk.injEq] at h
    rw [← h.1]
    exact ⟨rfl, rfl, rfl, rfl⟩

theorem GetBias_below (iTemp : Int) (h : iTemp < 3) :
    GetBias iTemp = some { x := -0.618, y := 0.900, z := 1.000 } := by
  have hs := scan_below iTemp h
  unfold GetBias GetBiasIn
  rw [hs]
  simp [astGyroBiasTable]

/-- The second part of the loop body completes when the temperature passed to
`GetBias` is below the last table temperature. -/
theorem cycleProcess_completes {Att : Type} (sc : ImuScale) (imu : ImuCycle) (rotation : Att)
    (s : TaskState Att) (ht : toInt16 imu.temperature < 43) :
    ∃ s2 log, cycleProcess sc imu rotation s = some (s2, log) := by
  have hb : ∃ b, GetBias (toInt16 imu.temperature) = some b := by
    rcases lt_or_le (toInt16 imu.temperature) 3 with h3 | h3
    · exact ⟨_, GetBias_below _ h3⟩
    · exact ⟨_, GetBias_between _ h3 ht⟩
  obtain ⟨b, hb⟩ := hb
  unfold cycleProcess
  simp [LSM9DS0_readTemp, hb]

/-- No call of `UpdateParameters` is a read of the IMU. -/
theorem UpdateParameters_no_reads (p : Params) :
    (UpdateParameters p).calls.count Event.LSM9DS0_readGyro = 0 ∧
      (UpdateParameters p).calls.count Event.LSM9DS0_readAccel = 0 := by
  unfold UpdateParameters
  split
  · simp
  · split <;> simp

/-- C6: in a cycle in which `UpdateParameters` returns and the gyro and
accelerometer FIFOs report the depths `g` and `a` (values of the `uint8_t`
variable `uiCount`), the first part of the loop body completes with
`uiGyroSampleCount` increased by exactly `g`, `uiAccelSampleCount` by exactly
`a`, `uiFlightRunCount` by exactly `1` and `uiFlightTaskMissed` unchanged;
every completed loop body ends with the same four values, and the loop body
does complete when the temperature is below the last table temperature. -/
theorem C6_cycle_adds_fifo_depths {Att : Type} (sc : ImuScale) (inp : CycleInput Att)
    (s : TaskState Att) (hp : (UpdateParameters inp.params).returned = true)
    (hg : inp.imu.fifoCountGyro < 256) (ha : inp.imu.fifoCountAccel < 256) :
    (∃ s1 log1, cycleAcquire sc inp.params inp.imu s = some (s1, log1) ∧
        s1.stFlightDetails.uiGyroSampleCount =
          s.stFlightDetails.uiGyroSampleCount + inp.imu.fifoCountGyro ∧
        s1.stFlightDetails.uiAccelSampleCount =
          s.stFlightDetails.uiAccelSampleCount + inp.imu.fifoCountAccel ∧
        s1.stFlightDetails.uiFlightRunCount = s.stFlightDetails.uiFlightRunCount + 1 ∧
        s1.stFlightDetails.uiFlightTaskMissed = s.stFlightDetails.uiFlightTaskMissed) ∧
      (∀ s2 log, cycleBody sc inp s = some (s2, log) →
        s2.stFlightDetails.uiGyroSampleCount =
          s.stFlightDetails.uiGyroSampleCount + inp.imu.fifoCountGyro ∧
        s2.stFlightDetails.uiAccelSampleCount =
          s.stFlightDetails.uiAccelSampleCount + inp.imu.fifoCountAccel ∧
        s2.stFlightDetails.uiFlightRunCount = s.stFlightDetails.uiFlightRunCount + 1 ∧
        s2.stFlightDetails.uiFlightTaskMissed = s.stFlightDetails.uiFlightTaskMissed) ∧
      (toInt16 inp.imu.temperature < 43 → ∃ s2 log, cycleBody sc inp s = some (s2, log)) := by
  have hacq := cycleAcquire_returned sc inp.params inp.imu s hp
  rw [Nat.mod_eq_of_lt hg, Nat.mod_eq_of_lt ha] at hacq
  refine ⟨⟨_, _, hacq, rfl, rfl, rfl, rfl⟩, ?_, ?_⟩
  · intro s2 log h
    unfold cycleBody at h
    rw [hacq] at h
    dsimp only at h
    split at h
    · exact absurd h (by simp)
    · rename_i s3 log3 h3
      simp only [Option.some.injEq, Prod.mk.injEq] at h
      have hc := cycleProcess_counters sc inp.imu inp.rotation _ s3 log3 h3
      rw [← h.1]
      exact ⟨hc.2.1, hc.2.2.1, hc.1, hc.2.2.2⟩
  · intro ht
    unfold cycleBody
    rw [hacq]
    dsimp only
    obtain ⟨s2, log2, h2⟩ := cycleProcess_completes sc inp.imu inp.rotation
      ({ s with
            accel := (drainAccel sc inp.imu.accelFifo inp.imu.fifoCountAccel
              { stImu := (drainGyro sc inp.imu.gyroFifo inp.imu.fifoCountGyro
                  { stImu := s.stImu, v := s.gyro, log := [] }).stImu,
                v := s.accel, log := [] }).v,
            gyro := (drainGyro sc inp.imu.gyroFifo inp.imu.fifoCountGyro
              { stImu := s.stImu, v := s.gyro, log := [] }).v,
            stImu := (drainAccel sc inp.imu.accelFifo inp.imu.fifoCountAccel
              { stImu := (drainGyro sc inp.imu.gyroFifo inp.imu.fifoCountGyro
                  { stImu := s.stImu, v := s.gyro, log := [] }).stImu,
                v := s.accel, log := [] }).stImu,
            stFlightDetails :=
              { s.stFlightDetails with
                  uiFlightRunCount := s.stFlightDetails.uiFlightRunCount + 1,
                  uiGyroSampleCount :=
                    s.stFlightDetails.uiGyroSampleCount + inp.imu.fifoCountGyro,
                  uiAccelSampleCount :=
                    s.stFlightDetails.uiAccelSampleCount + inp.imu.fifoCountAccel } } :
        TaskState Att) ht
    rw [h2]
    exact ⟨_, _, rfl⟩

/-- Witness of C6: with depths `3` and `5` the loop body completes and takes
the sample counters from `20` and `30` to `23` and `35`. -/
theorem C6_cycle_adds_fifo_depths_witness :
    ((UpdateParameters exampleInput.params).returned = true ∧
        exampleInput.imu.fifoCountGyro < 256 ∧ exampleInput.imu.fifoCountAccel < 256) ∧
      ∃ s2 log, cycleBody exampleScale exampleInput exampleTask = some (s2, log) ∧
        s2.stFlightDetails.uiGyroSampleCount = 20 + 3 ∧
        s2.stFlightDetails.uiAccelSampleCount = 30 + 5 ∧
        s2.stFlightDetails.uiFlightRunCount = 7 + 1 ∧
        s2.stFlightDetails.uiFlightTaskMissed = 2 := by
  have hc := C6_cycle_adds_fifo_depths exampleScale exampleInput exampleTask
    (by decide) (by decide) (by decide)
  obtain ⟨s2, log, h2⟩ := hc.2.2 (by decide)
  exact ⟨⟨by decide, by decide, by decide⟩, s2, log, h2, hc.2.1 s2 log h2⟩

/-- C7: in a cycle with gyro FIFO depth `g >= 1` and accelerometer FIFO depth
`a >= 1` (values of the `uint8_t` variable `uiCount`) the drain loops end
after exactly `g` calls of `LSM9DS0_readGyro` and exactly `a` calls of
`LSM9DS0_readAccel`; the registers then hold the last (`g`-th, `a`-th) sample
read, `gyro` and `accel` are the scale conversions of those registers, and
any other FIFO contents with the same last samples give the same `gyro` and
`accel`. -/
theorem C7_drain_keeps_only_last_sample {Att : Type} (sc : ImuScale) (p : Params)
    (imu : ImuCycle) (s : TaskState Att) (hp : (UpdateParameters p).returned = true)
    (hg1 : 1 ≤ imu.fifoCountGyro) (hg : imu.fifoCountGyro < 256)
    (ha1 : 1 ≤ imu.fifoCountAccel) (ha : imu.fifoCountAccel < 256) :
    ∃ s1 log, cycleAcquire sc p imu s = some (s1, log) ∧
      log.count Event.LSM9DS0_readGyro = imu.fifoCountGyro ∧
      log.count Event.LSM9DS0_readAccel = imu.fifoCountAccel ∧
      RawSample.mk s1.stImu.gx s1.stImu.gy s1.stImu.gz =
        imu.gyroFifo (imu.fifoCountGyro - 1) ∧
      RawSample.mk s1.stImu.ax s1.stImu.ay s1.stImu.az =
        imu.accelFifo (imu.fifoCountAccel - 1) ∧
      s1.gyro =
        { x := sc.LSM9DS0_calcGyro s1.stImu.gx,
          y := sc.LSM9DS0_calcGyro s1.stImu.gy,
          z := sc.LSM9DS0_calcGyro s1.stImu.gz } ∧
      s1.accel =
        { x := sc.LSM9DS0_calcAccel s1.stImu.ax,
          y := sc.LSM9DS0_calcAccel s1.stImu.ay,
          z := sc.LSM9DS0_calcAccel s1.stImu.az } ∧
      ∀ gyroFifo accelFifo : Nat → RawSample,
        gyroFifo (imu.fifoCountGyro - 1) = imu.gyroFifo (imu.fifoCountGyro - 1) →
        accelFifo (imu.fifoCountAccel - 1) = imu.accelFifo (imu.fifoCountAccel - 1) →
        ∃ t1 tlog,
          cycleAcquire sc p { imu with gyroFifo := gyroFifo, accelFifo := accelFifo } s =
            some (t1, tlog) ∧
          t1.gyro = s1.gyro ∧ t1.accel = s1.accel := by
  obtain ⟨n, hn⟩ : ∃ n, imu.fifoCountGyro = n + 1 := ⟨imu.fifoCountGyro - 1, by omega⟩
  obtain ⟨m, hm⟩ : ∃ m, imu.fifoCountAccel = m + 1 := ⟨imu.fifoCountAccel - 1, by omega⟩
  have hcnt := UpdateParameters_no_reads p
  have hacq := cycleAcquire_returned sc p imu s hp
  rw [Nat.mod_eq_of_lt hg, Nat.mod_eq_of_lt ha] at hacq
  refine ⟨_, _, hacq, ?_, ?_, ?_, ?_, ?_, ?_, ?_⟩
  · simp [List.count_append, List.count_replicate, hcnt.1]
  · simp [List.count_append, List.count_replicate, hcnt.2]
  · simp [hn, hm, drainGyro_succ, drainAccel_succ, LSM9DS0_readGyro, LSM9DS0_readAccel]
  · simp [hn, hm, drainGyro_succ, drainAccel_succ, LSM9DS0_readGyro, LSM9DS0_readAccel]
  · simp [hn, hm, drainGyro_succ, drainAccel_succ, LSM9DS0_readGyro, LSM9DS0_readAccel]
  · simp [hn, hm, drainGyro_succ, drainAccel_succ, LSM9DS0_readGyro, LSM9DS0_readAccel]
  · intro gyroFifo accelFifo hgf haf
    have hacq2 := cycleAcquire_returned sc p
      { imu with gyroFifo := gyroFifo, accelFifo := accelFifo } s hp
    dsimp only at hacq2
    rw [Nat.mod_eq_of_lt hg, Nat.mod_eq_of_lt ha] at hacq2
    refine ⟨_, _, hacq2, ?_, ?_⟩
    · simp only [hn, drainGyro_succ, List.length_nil, Nat.zero_add]
      simp only [hn, Nat.add_sub_cancel] at hgf
      rw [hgf]
    · simp only [hm, drainAccel_succ, List.length_nil, Nat.zero_add]
      simp only [hm, Nat.add_sub_cancel] at haf
      rw [haf]

/-- Witness of C7: with depths `3` and `5` there are three gyro reads and five
accelerometer reads, and the registers hold the third and the fifth sample. -/
theorem C7_drain_keeps_only_last_sample_witness :
    ((UpdateParameters exampleParams).returned = true ∧
        (1 ≤ exampleImu.fifoCountGyro ∧ exampleImu.fifoCountGyro < 256) ∧
        (1 ≤ exampleImu.fifoCountAccel ∧ exampleImu.fifoCountAccel < 256)) ∧
      ∃ s1 log, cycleAcquire exampleScale exampleParams exampleImu exampleTask = some (s1, log) ∧
        log.count Event.LSM9DS0_readGyro = 3 ∧
        log.count Event.LSM9DS0_readAccel = 5 ∧
        RawSample.mk s1.stImu.gx s1.stImu.gy s1.stImu.gz = RawSample.mk 300 600 (-300) ∧
        RawSample.mk s1.stImu.ax s1.stImu.ay s1.stImu.az = RawSample.mk 0 40 4096 := by
  obtain ⟨s1, log, h1, hg, ha, hrg, hra, _⟩ :=
    C7_drain_keeps_only_last_sample exampleScale exampleParams exampleImu exampleTask
      (by decide) (by decide) (by decide) (by decide) (by decide)
  exact ⟨⟨by decide, ⟨by decide, by decide⟩, ⟨by decide, by decide⟩⟩,
    s1, log, h1, hg, ha, hrg, hra⟩

/-! ## Claims on the trim part of `UpdateParameters` -/

/-- C8 (the code departs from the claim): with `TrimRoll = 1`, `TrimPitch = 2`
and `TrimYaw = 3` all present, `UpdateParameters` passes the trim vector
`(1, 2, 0)` to `FLIGHT_SetTrim`: the branch guarded by `pstTrimYaw` assigns
`stTrim.y` from `pstTrimPitch` and `stTrim.z` is never assigned, so the yaw
component is not the value of `TrimYaw`. -/
theorem C8_trim_yaw_value_not_pushed :
    buildTrim exampleParams = some { x := 1, y := 2, z := 0 } ∧
      (UpdateParameters exampleParams).calls =
        [Event.FLIGHT_SetTrim { x := 1, y := 2, z := 0 }, Event.FLIGHT_SetPidGains 4 5 6] ∧
      exampleParams.pstTrimYaw = some 3 ∧
      buildTrim exampleParams ≠ some { x := 1, y := 2, z := 3 } := by
  decide

/-- C9: when the yaw-trim handle is absent, whatever the roll and pitch trim
handles are, `UpdateParameters` reaches `FLIGHT_SetTrim` and the vector it
passes has the yaw component exactly `0`, the roll component equal to the
value of `TrimRoll` (`0` if absent) and the pitch component equal to the value
of `TrimPitch` (`0` if absent). -/
theorem C9_absent_yaw_trim_gives_zero (p : Params) (h : p.pstTrimYaw = none) :
    buildTrim p =
        some { x := p.pstTrimRoll.getD 0, y := p.pstTrimPitch.getD 0, z := 0 } ∧
      (UpdateParameters p).calls.head? =
        some (Event.FLIGHT_SetTrim
          { x := p.pstTrimRoll.getD 0, y := p.pstTrimPitch.getD 0, z := 0 }) := by
  have hb : buildTrim p =
      some { x := p.pstTrimRoll.getD 0, y := p.pstTrimPitch.getD 0, z := 0 } := by
    unfold buildTrim
    rw [h]
    cases p.pstTrimRoll <;> cases p.pstTrimPitch <;> rfl
  refine ⟨hb, ?_⟩
  unfold UpdateParameters
  rw [hb]
  dsimp only
  split <;> rfl

/-- Witness of C9: roll and pitch trims present, yaw trim and gains absent. -/
theorem C9_absent_yaw_trim_gives_zero_witness :
    exampleParamsNoYaw.pstTrimYaw = none ∧
      (UpdateParameters exampleParamsNoYaw).calls.head? =
        some (Event.FLIGHT_SetTrim { x := 1, y := 2, z := 0 }) :=
  ⟨rfl, (C9_absent_yaw_trim_gives_zero exampleParamsNoYaw rfl).2⟩

/-- C10 (the code departs from the claim): with `TrimYaw` present and
`TrimPitch` absent, the branch guarded by `pstTrimYaw` reads
`pstTrimPitch->fValue` through the null pointer: the trim vector is not built
and `FLIGHT_SetTrim` is not reached. -/
theorem C10_trim_reads_absent_pitch_handle :
    exampleParamsYawOnly.pstTrimPitch = none ∧
      exampleParamsYawOnly.pstTrimYaw = some 3 ∧
      buildTrim exampleParamsYawOnly = none ∧
      (UpdateParameters exampleParamsYawOnly).calls = [] ∧
      (UpdateParameters exampleParamsYawOnly).returned = false := by
  decide

/-! ## Claims on the gain part of `UpdateParameters` -/

/-- C11: once the trim part has completed (the trim vector `stTrim` is built),
`UpdateParameters` fails to return if and only if at least one of the handles
`PIDGainRate_P`, `PIDGainRate_D`, `PIDGainAngle_P` is absent; when the three
are present its calls are `FLIGHT_SetTrim( stTrim )` followed by exactly one
`FLIGHT_SetPidGains` with their values in the order (rate P, rate D, angle P);
and the run is the same whatever the two yaw-rate gain handles are. -/
theorem C11_gains_fail_iff_a_handle_absent (p : Params) (stTrim : vector3f_t)
    (h : buildTrim p = some stTrim) :
    ((UpdateParameters p).returned = false ↔
        (p.pstPidGainRateP = none ∨ p.pstPidGainRateD = none ∨ p.pstPidGainAngleP = none)) ∧
      (∀ fRateP fRateD fAngleP : ℚ,
        p.pstPidGainRateP = some fRateP → p.pstPidGainRateD = some fRateD →
        p.pstPidGainAngleP = some fAngleP →
          UpdateParameters p =
            { calls := [Event.FLIGHT_SetTrim stTrim,
                        Event.FLIGHT_SetPidGains fRateP fRateD fAngleP],
              returned := true } ∧
          ∀ a b c : ℚ, (UpdateParameters p).calls.count (Event.FLIGHT_SetPidGains a b c) =
            if a = fRateP ∧ b = fRateD ∧ c = fAngleP then 1 else 0) ∧
      (∀ yawP yawD : Option ℚ,
        UpdateParameters { p with pstPidGainRateYawP := yawP, pstPidGainRateYawD := yawD } =
          UpdateParameters p) := by
  refine ⟨?_, ?_, ?_⟩
  · unfold UpdateParameters
    rw [h]
    cases p.pstPidGainRateP <;> cases p.pstPidGainRateD <;> cases p.pstPidGainAngleP <;> simp
  · intro fRateP fRateD fAngleP hP hD hA
    have hu : UpdateParameters p =
        { calls := [Event.FLIGHT_SetTrim stTrim,
                    Event.FLIGHT_SetPidGains fRateP fRateD fAngleP],
          returned := true } := by
      unfold UpdateParameters
      rw [h, hP, hD, hA]
    refine ⟨hu, ?_⟩
    intro a b c
    rw [hu]
    by_cases habc : a = fRateP ∧ b = fRateD ∧ c = fAngleP
    · obtain ⟨ha, hb, hc⟩ := habc
      subst ha hb hc
      simp
    · rw [if_neg habc]
      have hne : ¬ (fRateP = a ∧ fRateD = b ∧ fAngleP = c) := by
        rintro ⟨ha, hb, hc⟩
        exact habc ⟨ha.symm, hb.symm, hc.symm⟩
      simp [List.count_cons, hne]
  · intro yawP yawD
    rfl

/-- Witness of C11: the three trims and the three gains present, the yaw-rate
gains absent. -/
theorem C11_gains_fail_iff_a_handle_absent_witness :
    buildTrim exampleParams = some { x := 1, y := 2, z := 0 } ∧
      UpdateParameters exampleParams =
        { calls := [Event.FLIGHT_SetTrim { x := 1, y := 2, z := 0 },
                    Event.FLIGHT_SetPidGains 4 5 6],
          returned := true } :=
  ⟨by decide,
   ((C11_gains_fail_iff_a_handle_absent exampleParams { x := 1, y := 2, z := 0 }
      (by decide)).2.1 4 5 6 rfl rfl rfl).1⟩

/-! ## Bounds on the interpolated bias -/

/-- C14: for every temperature strictly between the two table temperatures
(`3 < iTemp < 43`) `GetBias` returns a bias whose components lie between the
components of the two table entries: `x` in `[-0.618, -0.500]`, `y` in
`[0.380, 0.900]`, `z` in `[1.000, 4.200]`. -/
theorem C14_GetBias_within_entry_bounds (iTemp : Int) (h1 : 3 < iTemp) (h2 : iTemp < 43) :
    ∃ b : vector3f_t, GetBias iTemp = some b ∧
      (-0.618 ≤ b.x ∧ b.x ≤ -0.500) ∧
      (0.380 ≤ b.y ∧ b.y ≤ 0.900) ∧
      (1.000 ≤ b.z ∧ b.z ≤ 4.200) := by
  refine ⟨_, GetBias_between iTemp (by omega) h2, ?_⟩
  have hlo : (0 : ℚ) ≤ ((iTemp - 3 : Int) : ℚ) / 40 := by
    have : (0 : ℚ) ≤ ((iTemp - 3 : Int) : ℚ) := by exact_mod_cast (by omega : (0 : Int) ≤ iTemp - 3)
    positivity
  have hhi : ((iTemp - 3 : Int) : ℚ) / 40 ≤ 1 := by
    have : ((iTemp - 3 : Int) : ℚ) ≤ 40 := by exact_mod_cast (by omega : iTemp - 3 ≤ (40 : Int))
    rw [div_le_one (by norm_num)]
    exact this
  generalize ((iTemp - 3 : Int) : ℚ) / 40 = t at hlo hhi
  refine ⟨⟨?_, ?_⟩, ⟨?_, ?_⟩, ⟨?_, ?_⟩⟩ <;> norm_num <;> linarith

/-- Witness of C14 at `iTemp = 23`. -/
theorem C14_GetBias_within_entry_bounds_witness :
    ((3 : Int) < 23 ∧ (23 : Int) < 43) ∧
      ∃ b : vector3f_t, GetBias 23 = some b ∧
        (-0.618 ≤ b.x ∧ b.x ≤ -0.500) ∧
        (0.380 ≤ b.y ∧ b.y ≤ 0.900) ∧
        (1.000 ≤ b.z ∧ b.z ≤ 4.200) :=
  ⟨⟨by decide, by decide⟩, C14_GetBias_within_entry_bounds 23 (by decide) (by decide)⟩

/-! ## Shape of a completed loop body -/

/-- The gyro drain leaves the magnetometer registers as they are. -/
theorem drainGyro_mag (sc : ImuScale) (fifo : Nat → RawSample) (n : Nat) (d : Drain) :
    (drainGyro sc fifo n d).stImu.mx = d.stImu.mx ∧
      (drainGyro sc fifo n d).stImu.my = d.stImu.my ∧
      (drainGyro sc fifo n d).stImu.mz = d.stImu.mz := by
  cases n with
  | zero => exact ⟨rfl, rfl, rfl⟩
  | succ k =>
      rw [drainGyro_succ]
      exact ⟨rfl, rfl, rfl⟩

/-- The accelerometer drain leaves the magnetometer registers as they are. -/
theorem drainAccel_mag (sc : ImuScale) (fifo : Nat → RawSample) (n : Nat) (d : Drain) :
    (drainAccel sc fifo n d).stImu.mx = d.stImu.mx ∧
      (drainAccel sc fifo n d).stImu.my = d.stImu.my ∧
      (drainAccel sc fifo n d).stImu.mz = d.stImu.mz := by
  cases n with
  | zero => exact ⟨rfl, rfl, rfl⟩
  | succ k =>
      rw [drainAccel_succ]
      exact ⟨rfl, rfl, rfl⟩

/-- What a completed first part of the loop body tells: `UpdateParameters`
returned, `gyro` is what the gyro drain left, the magnetometer registers are
untouched, and the calls are those of `UpdateParameters` and the two drains. -/
theorem cycleAcquire_inv {Att : Type} (sc : ImuScale) (p : Params) (imu : ImuCycle)
    (s s1 : TaskState Att) (log1 : List Event)
    (h : cycleAcquire sc p imu s = some (s1, log1)) :
    (UpdateParameters p).returned = true ∧
      s1.gyro = (drainGyro sc imu.gyroFifo (imu.fifoCountGyro % 256)
        { stImu := s.stImu, v := s.gyro, log := [] }).v ∧
      (s1.stImu.mx = s.stImu.mx ∧ s1.stImu.my = s.stImu.my ∧ s1.stImu.mz = s.stImu.mz) ∧
      log1 = (UpdateParameters p).calls ++ [Event.LSM9DS0_fifoCountGyro]
        ++ List.replicate (imu.fifoCountGyro % 256) Event.LSM9DS0_readGyro
        ++ [Event.LSM9DS0_fifoCountAccel]
        ++ List.replicate (imu.fifoCountAccel % 256) Event.LSM9DS0_readAccel := by
  have hp : (UpdateParameters p).returned = true := by
    cases hr : (UpdateParameters p).returned
    · unfold cycleAcquire at h
      simp [hr] at h
    · rfl
  rw [cycleAcquire_returned sc p imu s hp] at h
  simp only [Option.some.injEq, Prod.mk.injEq] at h
  obtain ⟨hs, hl⟩ := h
  refine ⟨hp, ?_, ?_, hl.symm⟩
  · rw [← hs]
  · rw [← hs]
    dsimp only
    have ha := drainAccel_mag sc imu.accelFifo (imu.fifoCountAccel % 256)
      { stImu := (drainGyro sc imu.gyroFifo (imu.fifoCountGyro % 256)
          { stImu := s.stImu, v := s.gyro, log := [] }).stImu,
        v := s.accel, log := [] }
    have hg := drainGyro_mag sc imu.gyroFifo (imu.fifoCountGyro % 256)
      { stImu := s.stImu, v := s.gyro, log := [] }
    dsimp only at ha hg
    exact ⟨ha.1.trans hg.1, ha.2.1.trans hg.2.1, ha.2.2.trans hg.2.2⟩

/-- What a completed second part of the loop body tells: `GetBias` returned a
bias `b` for the temperature read, and the state and the calls are the ones
computed from `b`. -/
theorem cycleProcess_inv {Att : Type} (sc : ImuScale) (imu : ImuCycle) (rotation : Att)
    (s s2 : TaskState Att) (log2 : List Event)
    (h : cycleProcess sc imu rotation s = some (s2, log2)) :
    ∃ b : vector3f_t, GetBias (toInt16 imu.temperature) = some b ∧
      s2.gyro = { x := (s.gyro.x - b.x) * DEG2RAD,
                  y := (s.gyro.y - b.y) * DEG2RAD,
                  z := (s.gyro.z - b.z) * DEG2RAD } ∧
      s2.mag = { x := sc.LSM9DS0_calcMag s.stImu.mx,
                 y := sc.LSM9DS0_calcMag s.stImu.my,
                 z := sc.LSM9DS0_calcMag s.stImu.mz } ∧
      s2.accel = s.accel ∧
      s2.stImu = LSM9DS0_readTemp imu.temperature s.stImu ∧
      s2.stFlightDetails.stAttitudeRate = s2.gyro ∧
      log2 = [Event.LSM9DS0_readTemp, Event.flight_process s2.accel s2.gyro s2.mag,
        Event.FLIGHT_GetRotation, Event.PUBSUB_Publish] := by
  unfold cycleProcess at h
  dsimp only at h
  split at h
  · exact absurd h (by simp)
  · rename_i b hb
    simp only [Option.some.injEq, Prod.mk.injEq] at h
    obtain ⟨hs, hl⟩ := h
    refine ⟨b, ?_, ?_, ?_, ?_, ?_, ?_, ?_⟩
    · simpa [LSM9DS0_readTemp] using hb
    · rw [← hs]
      rfl
    · rw [← hs]
    · rw [← hs]
    · rw [← hs]
    · rw [← hs]
    · rw [← hl, ← hs]

/-- A completed loop body is a completed first part followed by a completed
second part. -/
theorem cycleBody_inv {Att : Type} (sc : ImuScale) (inp : CycleInput Att)
    (s s2 : TaskState Att) (log : List Event) (h : cycleBody sc inp s = some (s2, log)) :
    ∃ s1 log1 log2, cycleAcquire sc inp.params inp.imu s = some (s1, log1) ∧
      cycleProcess sc inp.imu inp.rotation s1 = some (s2, log2) ∧ log = log1 ++ log2 := by
  unfold cycleBody at h
  cases h1 : cycleAcquire sc inp.params inp.imu s with
  | none =>
      rw [h1] at h
      exact absurd h (by simp)
  | some r1 =>
      obtain ⟨s1, log1⟩ := r1
      rw [h1] at h
      dsimp only at h
      cases h3 : cycleProcess sc inp.imu inp.rotation s1 with
      | none =>
          rw [h3] at h
          exact absurd h (by simp)
      | some r3 =>
          obtain ⟨s3, log3⟩ := r3
          rw [h3] at h
          simp only [Option.some.injEq, Prod.mk.injEq] at h
          exact ⟨s1, log1, log3, rfl, by rw [h3, h.1], h.2.symm⟩

/-- The loop body completes when `UpdateParameters` returns and the temperature
passed to `GetBias` is below the last table temperature. -/
theorem cycleBody_completes {Att : Type} (sc : ImuScale) (inp : CycleInput Att)
    (s : TaskState Att) (hp : (UpdateParameters inp.params).returned = true)
    (ht : toInt16 inp.imu.temperature < 43) :
    ∃ s2 log, cycleBody sc inp s = some (s2, log) := by
  unfold cycleBody
  rw [cycleAcquire_returned sc inp.params inp.imu s hp]
  dsimp only
  obtain ⟨s2, log2, h2⟩ := cycleProcess_completes sc inp.imu inp.rotation
    ({ s with
          accel := (drainAccel sc inp.imu.accelFifo (inp.imu.fifoCountAccel % 256)
            { stImu := (drainGyro sc inp.imu.gyroFifo (inp.imu.fifoCountGyro % 256)
                { stImu := s.stImu, v := s.gyro, log := [] }).stImu,
              v := s.accel, log := [] }).v,
          gyro := (drainGyro sc inp.imu.gyroFifo (inp.imu.fifoCountGyro % 256)
            { stImu := s.stImu, v := s.gyro, log := [] }).v,
          stImu := (drainAccel sc inp.imu.accelFifo (inp.imu.fifoCountAccel % 256)
            { stImu := (drainGyro sc inp.imu.gyroFifo (inp.imu.fifoCountGyro % 256)
                { stImu := s.stImu, v := s.gyro, log := [] }).stImu,
              v := s.accel, log := [] }).stImu,
          stFlightDetails :=
            { s.stFlightDetails with
                uiFlightRunCount := s.stFlightDetails.uiFlightRunCount + 1,
                uiGyroSampleCount :=
                  s.stFlightDetails.uiGyroSampleCount + inp.imu.fifoCountGyro % 256,
                uiAccelSampleCount :=
                  s.stFlightDetails.uiAccelSampleCount + inp.imu.fifoCountAccel % 256 } } :
      TaskState Att) ht
  rw [h2]
  exact ⟨_, _, rfl⟩

/-- The calls of `UpdateParameters` are neither calls of `flight_process` nor
reads of the magnetometer or of the temperature. -/
theorem UpdateParameters_calls_kind (p : Params) :
    (UpdateParameters p).calls.filter Event.isFlightProcess = [] ∧
      (UpdateParameters p).calls.count Event.LSM9DS0_readMag = 0 ∧
      (UpdateParameters p).calls.count Event.LSM9DS0_readTemp = 0 := by
  unfold UpdateParameters
  split
  · simp
  · split <;> simp [Event.isFlightProcess]

/-! ## Claims on the gyro vector handed to the flight controller -/

/-- C12: in a cycle with gyro FIFO depth `g >= 1` (a value of the `uint8_t`
variable `uiCount`), every completed loop body has read the temperature `T`
once, and the gyro vector it passes to `flight_process` and publishes as
`stAttitudeRate` is, componentwise, `(r - GetBias(T)) * (PI / 180)` with `r`
the scale conversion of the last sample drained (`T` as converted to the
`int16_t` parameter of `GetBias`); the loop body does complete when
`UpdateParameters` returns and `T` is below the last table temperature. -/
theorem C12_gyro_bias_subtracted_then_converted {Att : Type} (sc : ImuScale)
    (inp : CycleInput Att) (s : TaskState Att)
    (hg1 : 1 ≤ inp.imu.fifoCountGyro) (hg : inp.imu.fifoCountGyro < 256) :
    (∀ s2 log, cycleBody sc inp s = some (s2, log) →
        ∃ b : vector3f_t, GetBias (toInt16 inp.imu.temperature) = some b ∧
          s2.stImu.temperature = inp.imu.temperature ∧
          log.count Event.LSM9DS0_readTemp = 1 ∧
          s2.gyro =
            { x := (sc.LSM9DS0_calcGyro (inp.imu.gyroFifo (inp.imu.fifoCountGyro - 1)).x - b.x)
                * (PI / 180),
              y := (sc.LSM9DS0_calcGyro (inp.imu.gyroFifo (inp.imu.fifoCountGyro - 1)).y - b.y)
                * (PI / 180),
              z := (sc.LSM9DS0_calcGyro (inp.imu.gyroFifo (inp.imu.fifoCountGyro - 1)).z - b.z)
                * (PI / 180) } ∧
          s2.stFlightDetails.stAttitudeRate = s2.gyro ∧
          log.filter Event.isFlightProcess =
            [Event.flight_process s2.accel s2.gyro s2.mag]) ∧
      ((UpdateParameters inp.params).returned = true → toInt16 inp.imu.temperature < 43 →
        ∃ s2 log, cycleBody sc inp s = some (s2, log)) := by
  refine ⟨?_, fun hp ht => cycleBody_completes sc inp s hp ht⟩
  intro s2 log h
  obtain ⟨s1, log1, log2, ha, hpr, hlog⟩ := cycleBody_inv sc inp s s2 log h
  obtain ⟨_, hgy, _, hl1⟩ := cycleAcquire_inv sc inp.params inp.imu s s1 log1 ha
  obtain ⟨b, hb, hg2, _, _, hst, hrate, hl2⟩ :=
    cycleProcess_inv sc inp.imu inp.rotation s1 s2 log2 hpr
  obtain ⟨n, hn⟩ : ∃ n, inp.imu.fifoCountGyro = n + 1 := ⟨inp.imu.fifoCountGyro - 1, by omega⟩
  have hk := UpdateParameters_calls_kind inp.params
  rw [Nat.mod_eq_of_lt hg, hn, drainGyro_succ] at hgy
  simp only [List.length_nil, Nat.zero_add] at hgy
  refine ⟨b, hb, ?_, ?_, ?_, hrate, ?_⟩
  · rw [hst]
    rfl
  · rw [hlog, hl1, hl2]
    simp [List.count_append, List.count_replicate, hk.2.2]
  · rw [hg2, hgy, hn]
    rfl
  · rw [hlog, hl1, hl2]
    simp [List.filter_append, List.filter_replicate, hk.1, Event.isFlightProcess]

/-- Witness of C12: the cycle `exampleInput` (three gyro samples, 23 degrees)
completes and C12 holds of it. -/
theorem C12_gyro_bias_subtracted_then_converted_witness :
    (1 ≤ exampleInput.imu.fifoCountGyro ∧ exampleInput.imu.fifoCountGyro < 256) ∧
      ∃ s2 log, cycleBody exampleScale exampleInput exampleTask = some (s2, log) ∧
        ∃ b : vector3f_t, GetBias 23 = some b ∧
          s2.gyro =
            { x := (exampleScale.LSM9DS0_calcGyro 300 - b.x) * (PI / 180),
              y := (exampleScale.LSM9DS0_calcGyro 600 - b.y) * (PI / 180),
              z := (exampleScale.LSM9DS0_calcGyro (-300) - b.z) * (PI / 180) } ∧
          s2.stFlightDetails.stAttitudeRate = s2.gyro := by
  have hc := C12_gyro_bias_subtracted_then_converted exampleScale exampleInput exampleTask
    (by decide) (by decide)
  obtain ⟨s2, log, h2⟩ := hc.2 (by decide) (by decide)
  obtain ⟨b, hb, _, _, hgy, hrate, _⟩ := hc.1 s2 log h2
  exact ⟨⟨by decide, by decide⟩, s2, log, h2, b, hb, hgy, hrate⟩

/-! ## Claims on the magnetometer -/

/-- C13 as stated does not hold: the cycle `exampleInput` completes and makes no
call of `LSM9DS0_readMag` at all (the call is commented out in the loop body),
so it does not issue exactly one magnetometer read. -/
theorem C13_counterexample_no_magnetometer_read :
    (cycleBody exampleScale exampleInput exampleTask).map
        (fun r => r.2.count Event.LSM9DS0_readMag) = some 0 ∧
      (cycleBody exampleScale exampleInput exampleTask).map
        (fun r => r.2.count Event.LSM9DS0_readMag) ≠ some 1 := by
  decide

/-- C13, amended: a completed cycle of the flight task issues no magnetometer
read to the IMU driver and leaves the raw magnetometer registers `mx`, `my`,
`mz` of `stImu` as they were when the cycle began; the mag vector it passes in
its one call of `flight_process` is the scale conversion of those registers. -/
theorem C13_mag_converted_from_unread_registers {Att : Type} (sc : ImuScale)
    (inp : CycleInput Att) (s s2 : TaskState Att) (log : List Event)
    (h : cycleBody sc inp s = some (s2, log)) :
    log.count Event.LSM9DS0_readMag = 0 ∧
      (s2.stImu.mx = s.stImu.mx ∧ s2.stImu.my = s.stImu.my ∧ s2.stImu.mz = s.stImu.mz) ∧
      s2.mag =
        { x := sc.LSM9DS0_calcMag s.stImu.mx,
          y := sc.LSM9DS0_calcMag s.stImu.my,
          z := sc.LSM9DS0_calcMag s.stImu.mz } ∧
      log.filter Event.isFlightProcess = [Event.flight_process s2.accel s2.gyro s2.mag] := by
  obtain ⟨s1, log1, log2, ha, hpr, hlog⟩ := cycleBody_inv sc inp s s2 log h
  obtain ⟨_, _, hm, hl1⟩ := cycleAcquire_inv sc inp.params inp.imu s s1 log1 ha
  obtain ⟨b, _, _, hmag, _, hst, _, hl2⟩ :=
    cycleProcess_inv sc inp.imu inp.rotation s1 s2 log2 hpr
  have hk := UpdateParameters_calls_kind inp.params
  refine ⟨?_, ?_, ?_, ?_⟩
  · rw [hlog, hl1, hl2]
    simp [List.count_append, List.count_replicate, hk.2.1]
  · rw [hst]
    exact hm
  · rw [hmag, hm.1, hm.2.1, hm.2.2]
  · rw [hlog, hl1, hl2]
    simp [List.filter_append, List.filter_replicate, hk.1, Event.isFlightProcess]

/-- Witness of amended C13: the cycle `exampleInput` completes, without a
magnetometer read. -/
theorem C13_mag_converted_from_unread_registers_witness :
    ∃ s2 log, cycleBody exampleScale exampleInput exampleTask = some (s2, log) ∧
      log.count Event.LSM9DS0_readMag = 0 ∧
      s2.mag =
        { x := exampleScale.LSM9DS0_calcMag exampleTask.stImu.mx,
          y := exampleScale.LSM9DS0_calcMag exampleTask.stImu.my,
          z := exampleScale.LSM9DS0_calcMag exampleTask.stImu.mz } := by
  obtain ⟨r, hr⟩ := Option.isSome_iff_exists.mp
    (show (cycleBody exampleScale exampleInput exampleTask).isSome = true by decide)
  obtain ⟨s2, log⟩ := r
  have hc := C13_mag_converted_from_unread_registers exampleScale exampleInput exampleTask
    s2 log hr
  exact ⟨s2, log, hr, hc.1, hc.2.2.1⟩

/-! ## A cycle that finds the gyro FIFO empty -/

/-- C15: let a cycle complete and leave the gyro vector `p` (the vector it
passed to `flight_process` and published, already bias-corrected and in
radians per second). If the next cycle finds the gyro FIFO empty, then every
completion of it has made no call of `LSM9DS0_readGyro`, and the gyro vector
it passes to `flight_process` and publishes as `stAttitudeRate` is
`(p - GetBias(T)) * (PI / 180)` for the temperature `T` of that cycle: bias
subtraction and unit conversion are applied again to the retained vector.
That cycle does complete when `UpdateParameters` returns and `T` is below the
last table temperature. -/
theorem C15_empty_gyro_fifo_reuses_previous_output {Att : Type} (sc : ImuScale)
    (inp1 inp2 : CycleInput Att) (s0 s1 : TaskState Att) (log1 : List Event)
    (h1 : cycleBody sc inp1 { s0 with bDone := false } = some (s1, log1))
    (h0 : inp2.imu.fifoCountGyro = 0) :
    (s1.stFlightDetails.stAttitudeRate = s1.gyro ∧
        log1.filter Event.isFlightProcess = [Event.flight_process s1.accel s1.gyro s1.mag] ∧
        ∃ b1 q : vector3f_t, GetBias (toInt16 inp1.imu.temperature) = some b1 ∧
          s1.gyro =
            { x := (q.x - b1.x) * (PI / 180),
              y := (q.y - b1.y) * (PI / 180),
              z := (q.z - b1.z) * (PI / 180) }) ∧
      (∀ s2 log2, cycleBody sc inp2 { s1 with bDone := false } = some (s2, log2) →
        log2.count Event.LSM9DS0_readGyro = 0 ∧
        (∃ b : vector3f_t, GetBias (toInt16 inp2.imu.temperature) = some b ∧
          s2.gyro =
            { x := (s1.gyro.x - b.x) * (PI / 180),
              y := (s1.gyro.y - b.y) * (PI / 180),
              z := (s1.gyro.z - b.z) * (PI / 180) }) ∧
        s2.stFlightDetails.stAttitudeRate = s2.gyro ∧
        log2.filter Event.isFlightProcess = [Event.flight_process s2.accel s2.gyro s2.mag] ∧
        TaskHandler sc [inp1, inp2] s0 = some ({ s2 with bDone := true }, log1 ++ log2)) ∧
      ((UpdateParameters inp2.params).returned = true →
        toInt16 inp2.imu.temperature < 43 →
        ∃ s2 log2, cycleBody sc inp2 { s1 with bDone := false } = some (s2, log2)) := by
  refine ⟨?_, ?_, fun hp ht => cycleBody_completes sc inp2 _ hp ht⟩
  · obtain ⟨t1, l1, l2, ha, hpr, hlog⟩ := cycleBody_inv sc inp1 _ s1 log1 h1
    obtain ⟨_, _, _, hl1⟩ := cycleAcquire_inv sc inp1.params inp1.imu _ t1 l1 ha
    obtain ⟨b1, hb1, hg1, _, _, _, hrate, hl2⟩ :=
      cycleProcess_inv sc inp1.imu inp1.rotation t1 s1 l2 hpr
    have hk := UpdateParameters_calls_kind inp1.params
    refine ⟨hrate, ?_, b1, t1.gyro, hb1, ?_⟩
    · rw [hlog, hl1, hl2]
      simp [List.filter_append, List.filter_replicate, hk.1, Event.isFlightProcess]
    · rw [hg1]
      rfl
  · intro s2 log2 h2
    obtain ⟨t1, l1, l2, ha, hpr, hlog⟩ := cycleBody_inv sc inp2 _ s2 log2 h2
    obtain ⟨_, hgy, _, hl1⟩ := cycleAcquire_inv sc inp2.params inp2.imu _ t1 l1 ha
    obtain ⟨b, hb, hg2, _, _, _, hrate, hl2⟩ :=
      cycleProcess_inv sc inp2.imu inp2.rotation t1 s2 l2 hpr
    have hk := UpdateParameters_calls_kind inp2.params
    have hr := UpdateParameters_no_reads inp2.params
    rw [h0] at hgy hl1
    simp only [Nat.zero_mod, drainGyro] at hgy
    refine ⟨?_, ⟨b, hb, ?_⟩, hrate, ?_, ?_⟩
    · rw [hlog, hl1, hl2]
      simp [List.count_append, List.count_replicate, hr.1]
    · rw [hg2, hgy]
      rfl
    · rw [hlog, hl1, hl2]
      simp [List.filter_append, List.filter_replicate, hk.1, Event.isFlightProcess]
    · simp [TaskHandler, h1, h2]

/-- Witness of C15: the cycle `exampleInput` followed by the cycle
`exampleInputEmptyGyro`, whose gyro FIFO is empty. -/
theorem C15_empty_gyro_fifo_reuses_previous_output_witness :
    ∃ s1 log1 s2 log2,
      cycleBody exampleScale exampleInput { exampleTask with bDone := false } = some (s1, log1) ∧
      exampleInputEmptyGyro.imu.fifoCountGyro = 0 ∧
      cycleBody exampleScale exampleInputEmptyGyro { s1 with bDone := false } =
        some (s2, log2) ∧
      log2.count Event.LSM9DS0_readGyro = 0 ∧
      ∃ b : vector3f_t, GetBias 30 = some b ∧
        s2.gyro =
          { x := (s1.gyro.x - b.x) * (PI / 180),
            y := (s1.gyro.y - b.y) * (PI / 180),
            z := (s1.gyro.z - b.z) * (PI / 180) } := by
  obtain ⟨r, hr⟩ := Option.isSome_iff_exists.mp
    (show (cycleBody exampleScale exampleInput
      { exampleTask with bDone := false }).isSome = true by decide)
  obtain ⟨s1, log1⟩ := r
  have hc := C15_empty_gyro_fifo_reuses_previous_output exampleScale exampleInput
    exampleInputEmptyGyro exampleTask s1 log1 hr rfl
  obtain ⟨s2, log2, h2⟩ := hc.2.2 (by decide) (by decide)
  obtain ⟨hcnt, hb, _⟩ := hc.2.1 s2 log2 h2
  exact ⟨s1, log1, s2, log2, hr, rfl, h2, hcnt, hb⟩

end TeensyQuad
